import Mathlib

/-!
Verification development for the repository fragment consisting of
`nemo/collections/nlp/models/language_modeling/megatron_fused_retro.py` and
`nemo/core/utils/k2_guard.py`.

The Python code is shallowly embedded: pure computations become Lean
functions over `List`/`Nat`/`Int`/`Rat`, Python dictionaries become
association lists with overwrite-on-insert semantics, raising code returns
`Except`, and the mutable model object becomes an explicit `ModelState`
record threaded through each method.
-/

namespace NeMo

/-! ## Pseudo tokens (`get_pseudo_tokens`, lines 448-467) -/

/-- Modelled from the spec: the placeholder markers come from the enum
`VirtualPromptPlaceholderToken` in `nemo.collections.nlp.modules.common`,
which is not under src/.  The docstring of `get_pseudo_tokens` in the source
shows that for `num_virtual_tokens = 3` the result is
`["<prompt_0>", "<prompt_1>", "<prompt_2>"]`, fixing `BASE.value = "<prompt_"`
and `END.value = ">"`. -/
def VirtualPromptPlaceholderTokenBase : String := "<prompt_"

/-- Modelled from the spec: the end marker of a placeholder token, see
`VirtualPromptPlaceholderTokenBase`. -/
def VirtualPromptPlaceholderTokenEnd : String := ">"

/-- `get_pseudo_tokens(num_virtual_tokens)`: a list of numbered virtual token
placeholder strings, one per `i in range(num_virtual_tokens)`. -/
def get_pseudo_tokens (num_virtual_tokens : Nat) : List String :=
  (List.range num_virtual_tokens).map (fun i =>
    VirtualPromptPlaceholderTokenBase ++ Nat.repr i ++ VirtualPromptPlaceholderTokenEnd)

/-! ## Python dictionaries as association lists

Python dict assignment `d[k] = v` overwrites the value when the key is
present (keeping its position) and appends a fresh entry otherwise; lookup
`d[k]` finds the unique entry for `k`. -/

/-- Python dict assignment `d[k] = v`. -/
def dictSet {α β : Type} [DecidableEq α] (d : List (α × β)) (k : α) (v : β) :
    List (α × β) :=
  if d.any (fun p => decide (p.1 = k)) then
    d.map (fun p => if p.1 = k then (k, v) else p)
  else
    d ++ [(k, v)]

/-- Python dict lookup `d[k]`, `none` when the key is absent (a `KeyError`). -/
def dictGet? {α β : Type} [DecidableEq α] (d : List (α × β)) (k : α) : Option β :=
  (d.find? (fun p => decide (p.1 = k))).map Prod.snd

/-! ## Task templates (`load_task_templates`, lines 408-445) -/

/-- One entry of the `task_templates:` list of the config, with the fields the
source reads off `task` (`task.taskname`, `task.prompt_template`,
`task.get("answer_only_loss", False)`, `task.get("answer_field", None)`,
`task.truncate_field`, `task.total_virtual_tokens`,
`task.virtual_token_splits`). -/
structure TaskTemplateCfg where
  taskname : String
  prompt_template : String
  answer_only_loss : Bool
  answer_field : Option String
  truncate_field : Option String
  total_virtual_tokens : Nat
  virtual_token_splits : List Nat
deriving DecidableEq, Repr

/-- Lazy group of the regex `\{(.*?)\}` attempted right after an opening
brace: consume characters up to the first `'}'`; `'.'` matches neither a
newline nor the end of the string, so the attempt fails if a newline occurs
first or no `'}'` follows.  Returns the group and the rest of the input after
the closing brace.  The remainder is always strictly shorter than the
input. -/
def scanLazyBraceGroup : List Char → Option (List Char × List Char)
  | [] => none
  | '}' :: rest => some ([], rest)
  | '\n' :: _ => none
  | c :: rest =>
    match scanLazyBraceGroup rest with
    | none => none
    | some (g, r) => some (c :: g, r)

/-- `re.findall("\{(.*?)\}", s)` on the character list of `s`: scan left to
right; at each `'{'` try the lazy group; on success emit the group and resume
after the match, on failure resume at the next character.  The scan is
driven by a fuel counter so that the recursion is structural; every step
strictly shortens the character list, so fuel `length + 1` never runs
out. -/
def findallLazyBraceGroups : Nat → List Char → List String
  | 0, _ => []
  | _, [] => []
  | fuel + 1, c :: rest =>
    if c = '{' then
      match scanLazyBraceGroup rest with
      | some (g, after) => g.asString :: findallLazyBraceGroups fuel after
      | none => findallLazyBraceGroups fuel rest
    else
      findallLazyBraceGroups fuel rest

/-- `re.findall("\{(.*?)\}", prompt_template)`. -/
def re_findall_lazy_brace_groups (s : String) : List String :=
  findallLazyBraceGroups (s.data.length + 1) s.data

/-- The per-task record stored in `self.task_templates[task.taskname]`
(lines 421-430). -/
structure TaskEntry where
  prompt_template : String
  prompt_template_fields : List String
  answer_only_loss : Bool
  answer_field : Option String
  truncate_field : Option String
  total_virtual_tokens : Nat
  virtual_token_splits : List Nat
  task_id_num : Nat
deriving DecidableEq, Repr

/-- The record stored under `self.task_templates[task.taskname]` for `task`
with id `task_id_num`. -/
def mkTaskEntry (task : TaskTemplateCfg) (task_id_num : Nat) : TaskEntry :=
  { prompt_template := task.prompt_template
    prompt_template_fields := re_findall_lazy_brace_groups task.prompt_template
    answer_only_loss := task.answer_only_loss
    answer_field := task.answer_field
    truncate_field := task.truncate_field
    total_virtual_tokens := task.total_virtual_tokens
    virtual_token_splits := task.virtual_token_splits
    task_id_num := task_id_num }

/-- The three fields of `self` populated by the loop of
`load_task_templates` (lines 415-434). -/
structure TaskTemplateTable where
  task_templates : List (String × TaskEntry)
  task_id_num_to_name : List (Nat × String)
  max_virtual_tokens : Nat
deriving DecidableEq, Repr

/-- One iteration of the `for task in task_templates` loop (lines 420-434). -/
def loadTaskTemplatesStep (st : TaskTemplateTable) (task_id_num : Nat)
    (task : TaskTemplateCfg) : TaskTemplateTable :=
  { task_templates := dictSet st.task_templates task.taskname (mkTaskEntry task task_id_num)
    task_id_num_to_name := dictSet st.task_id_num_to_name task_id_num task.taskname
    max_virtual_tokens := max st.max_virtual_tokens task.total_virtual_tokens }

/-- The `for task in task_templates` loop with the running `task_id_num`. -/
def loadTaskTemplatesLoop : List TaskTemplateCfg → Nat → TaskTemplateTable →
    TaskTemplateTable
  | [], _, st => st
  | task :: rest, task_id_num, st =>
    loadTaskTemplatesLoop rest (task_id_num + 1) (loadTaskTemplatesStep st task_id_num task)

/-- Lines 415-434 of `load_task_templates`: build the task-template table
from the config list, starting from empty tables and `task_id_num = 0`. -/
def buildTaskTemplates (task_templates : List TaskTemplateCfg) : TaskTemplateTable :=
  loadTaskTemplatesLoop task_templates 0 ⟨[], [], 0⟩

/-- The ways `load_task_templates` can raise: a Python `KeyError` from
indexing `self.task_templates` with an unknown task name, or the
`AssertionError` of lines 442-445. -/
inductive LoadError where
  | keyError (taskname : String)
  | assertionError (message : String)
deriving DecidableEq, Repr

/-- The message of the assert at lines 442-445. -/
def totalVirtualTokensAssertMessage : String :=
  "Total virtual tokens for each task tuned simultaneously must match. If you want to use a different number of virtual tokens for different tasks, tune them separately."

/-- The generator inside `all(...)` at lines 442-445, together with the
assert: task names are read in order; a missing name raises `KeyError`, the
first mismatching `total_virtual_tokens` makes `all` return `False` and the
assert raise. -/
def checkNewTasksAgree (d : List (String × TaskEntry)) (total_new : Nat) :
    List String → Except LoadError Unit
  | [] => .ok ()
  | taskname :: rest =>
    match dictGet? d taskname with
    | none => .error (.keyError taskname)
    | some entry =>
      if entry.total_virtual_tokens = total_new then
        checkNewTasksAgree d total_new rest
      else
        .error (.assertionError totalVirtualTokensAssertMessage)

/-- The state written by a successful `load_task_templates` call:
the table plus `self.total_new_task_virtual_tokens` (set only when
`self.new_tasks` is non-empty). -/
structure LoadResult where
  table : TaskTemplateTable
  total_new_task_virtual_tokens : Option Nat
deriving DecidableEq, Repr

/-- `load_task_templates(self, task_templates)` (lines 408-445) with
`self.new_tasks` passed explicitly: build the table, then, when there are
new tasks, read `self.task_templates[self.new_tasks[0]]` and assert that
every new task's `total_virtual_tokens` matches it. -/
def load_task_templates (new_tasks : List String)
    (task_templates : List TaskTemplateCfg) : Except LoadError LoadResult :=
  let table := buildTaskTemplates task_templates
  match new_tasks with
  | [] => .ok ⟨table, none⟩
  | new_task_name :: _ =>
    match dictGet? table.task_templates new_task_name with
    | none => .error (.keyError new_task_name)
    | some first_entry =>
      match checkNewTasksAgree table.task_templates first_entry.total_virtual_tokens
          new_tasks with
      | .error e => .error e
      | .ok () => .ok ⟨table, some first_entry.total_virtual_tokens⟩

/-! ## Tokenizer (external, `self.tokenizer`) -/

/-- Modelled from the spec: the tokenizer object (owned by the frozen base
model, not under src/) maps token strings to token ids; its `tokens_to_ids`
method converts a list of tokens elementwise. -/
def tokens_to_ids (tokenToId : String → Int) (tokens : List String) : List Int :=
  tokens.map tokenToId

/-! ## Virtual prompt style and source (lines 53 and 80-91) -/

/-- Modelled from the spec: the enum `VirtualPromptStyle` from
`nemo.collections.nlp.modules.common` (not under src/), whose recognized
values are the strings 'prompt-tuning', 'p-tuning', 'inference' and
'no-prompt'. -/
inductive VirtualPromptStyle where
  | prompt_tuning
  | p_tuning
  | inference
  | no_prompt
deriving DecidableEq, Repr

/-- Modelled from the spec: the enum `VirtualPromptSource` from
`nemo.collections.nlp.modules.common` (not under src/). -/
inductive VirtualPromptSource where
  | prompt_table
  | prompt_encoder
  | no_prompt
deriving DecidableEq, Repr

/-- A Python `ValueError` carrying its message. -/
inductive PyError where
  | valueError (message : String)
deriving DecidableEq, Repr

/-- Modelled from the spec: `VirtualPromptStyle(cfg.virtual_prompt_style)`
at line 53 — the Python enum constructor returns the member for a recognized
value and raises `ValueError` with a descriptive message otherwise. -/
def virtualPromptStyleOfString (s : String) : Except PyError VirtualPromptStyle :=
  if s = "prompt-tuning" then .ok .prompt_tuning
  else if s = "p-tuning" then .ok .p_tuning
  else if s = "inference" then .ok .inference
  else if s = "no-prompt" then .ok .no_prompt
  else .error (.valueError (s!"'{s}' is not a valid VirtualPromptStyle"))

/-- Lines 80-91 of `__init__`: select `self.virtual_prompt_source` from
`self.virtual_prompt_style`, raising `ValueError` in the `else` branch. -/
def selectVirtualPromptSource (virtual_prompt_style : VirtualPromptStyle)
    (cfg_virtual_prompt_style : String) : Except PyError VirtualPromptSource :=
  if virtual_prompt_style = .prompt_tuning ∨ virtual_prompt_style = .inference then
    .ok .prompt_table
  else if virtual_prompt_style = .p_tuning then
    .ok .prompt_encoder
  else if virtual_prompt_style = .no_prompt then
    .ok .no_prompt
  else
    .error (.valueError
      (s!"\nvirtual prompt style '{cfg_virtual_prompt_style}' not recognized, please use one of 'prompt-tuning' or 'p-tuning'"))

/-! ## `pad_batch_and_build_loss_mask` (lines 326-353)

Loss-mask values are the Python floats `0.0`/`1.0`; both are exactly
representable, so they are embedded as the rationals `0` and `1`. -/

/-- One iteration of the `for ids, answer_start_idx in zip(input_ids,
answer_starts)` loop: the loss mask of the row followed by the padding of
both the row and the mask to `batch_max` (Python's `[x] * n` is empty for
non-positive `n`, matching truncated `Nat` subtraction). -/
def padRowAndMask (pseudo_token_ids : List Int) (pad_token_id : Int)
    (batch_max : Nat) (ids : List Int) (answer_start_idx : Option Nat) :
    List Int × List ℚ :=
  let loss_mask : List ℚ :=
    match answer_start_idx with
    | some answer_start =>
      (List.range ids.length).map (fun idx => if answer_start ≤ idx then 1 else 0)
    | none =>
      ids.map (fun token_id => if token_id ∈ pseudo_token_ids then 0 else 1)
  let padding_length := batch_max - ids.length
  (ids ++ List.replicate padding_length pad_token_id,
   loss_mask ++ List.replicate padding_length 0)

/-- `pad_batch_and_build_loss_mask(self, input_ids, batch_max,
answer_starts)` with the fields of `self` it reads passed explicitly.
Returns the padded input ids and the per-row loss masks. -/
def pad_batch_and_build_loss_mask (pseudo_token_ids : List Int)
    (pad_token_id : Int) (input_ids : List (List Int)) (batch_max : Nat)
    (answer_starts : List (Option Nat)) : List (List Int) × List (List ℚ) :=
  let rows := (List.zip input_ids answer_starts).map
    (fun p => padRowAndMask pseudo_token_ids pad_token_id batch_max p.1 p.2)
  (rows.map Prod.fst, rows.map Prod.snd)

/-! ## `collate_fn` (lines 258-310) -/

/-- `resi_padding` of lines 275-279: extra padding making the sequence
length (after the one-token trim) a multiple of the tensor-parallel world
size. -/
def resi_padding (tp_workers batch_max : Nat) : Nat :=
  if 1 < tp_workers then (tp_workers - (batch_max - 1) % tp_workers) % tp_workers
  else 0

/-- The ways `collate_fn` fails: Python raises `ValueError` unpacking
`zip(*batch)` on an empty batch, and the body at line 305 contains the
dangling attribute access `retro_train_ds.` on an undefined name, reached on
every non-empty batch. -/
inductive CollateError where
  | valueErrorEmptyBatch
  | danglingRetroTrainDsAccess
deriving DecidableEq, Repr

/-- The six-element tuple `collate_fn` is written to return at line 309:
`tokens, tokens_mask, loss_mask, retrieved_ids, retrieved_emb_mask, labels`. -/
structure CollateOutput where
  tokens : List (List Int)
  tokens_mask : List (List Int)
  loss_mask : List (List ℚ)
  retrieved_ids : List (List Int)
  retrieved_emb_mask : List (List Int)
  labels : List (List Int)
deriving DecidableEq, Repr

/-- Modelled from the spec: `build_position_ids` (from
`nemo.collections.nlp.modules.common.megatron.utils`, not under src/)
assigns each token its position index within its row. -/
def build_position_ids (input_ids : List (List Int)) : List (List Nat) :=
  input_ids.map (fun row => List.range row.length)

/-- `collate_fn(self, batch, tp_workers)` (lines 258-310) with the fields of
`self` it reads passed explicitly.  Each batch element is a triple
`(taskname_ids, input_ids, answer_start)`.  All intermediate steps of the
body are computed as in the source, but line 305 assigns
`retrieved_ids = retro_train_ds.` — a dangling attribute access on an
undefined name — so the method never reaches its `return`. -/
def collate_fn (virtual_prompt_source : VirtualPromptSource)
    (pad_token_id : Int) (pseudo_token_ids : List Int)
    (batch : List (List Int × List Int × Option Nat)) (tp_workers : Nat) :
    Except CollateError CollateOutput :=
  if batch.isEmpty then .error .valueErrorEmptyBatch
  else
    let taskname_ids := batch.map (fun b => b.1)
    let input_ids := batch.map (fun b => b.2.1)
    let answer_starts := batch.map (fun b => b.2.2)
    let max_taskname_length := (taskname_ids.map List.length).foldl max 0
    let taskname_ids :=
      if virtual_prompt_source = .prompt_encoder then
        taskname_ids.map (fun ids =>
          ids ++ List.replicate (max_taskname_length - ids.length) pad_token_id)
      else taskname_ids
    let batch_max := (input_ids.map List.length).foldl max 0
    let batch_max := batch_max + resi_padding tp_workers batch_max
    let padded := pad_batch_and_build_loss_mask pseudo_token_ids pad_token_id
      input_ids batch_max answer_starts
    let input_ids := padded.1
    let loss_mask := padded.2
    let labels := input_ids.map (fun row => row.drop 1)
    let input_ids := input_ids.map (fun row => row.take (row.length - 1))
    let batch_max := batch_max - 1
    let loss_mask := loss_mask.map (fun row => row.drop 1)
    let batch_size := input_ids.length
    let attention_mask := List.replicate batch_size
      ((List.range batch_max).map (fun i =>
        (List.range batch_max).map (fun j => decide (i < j))))
    let position_ids := build_position_ids input_ids
    let pad_sequence_max := (input_ids.map List.length).foldl max 0
    let tokens := input_ids.map (fun row =>
      row ++ List.replicate (pad_sequence_max - row.length) (50256 : Int))
    let tokens_mask := tokens.map (fun row =>
      row.map (fun t => if t = (50256 : Int) then (0 : Int) else 1))
    .error .danglingRetroTrainDsAccess

/-! ## The model object and its methods -/

/-- An `__init__` can raise the `ValueError` of the style checks or an error
from `load_task_templates`. -/
inductive InitError where
  | valueError (message : String)
  | loadError (e : LoadError)
deriving DecidableEq, Repr

/-- The mutable state of a `MegatronFusedRetrievalAdapterModel`, restricted
to the fields assigned anywhere in the shown class.  The types of the
external objects (prompt-learning datasets and dataloaders, retro datasets,
adapter layers) are abstract parameters. -/
structure ModelState (DS DL RetroDS Layer : Type) where
  virtual_prompt_style : VirtualPromptStyle
  virtual_prompt_source : VirtualPromptSource
  task_templates : List (String × TaskEntry)
  task_id_num_to_name : List (Nat × String)
  max_virtual_tokens : Nat
  total_new_task_virtual_tokens : Option Nat
  pseudo_tokens : List String
  pseudo_token_ids : List Int
  pseudo_token_ids_start : Option Int
  pad_token_id : Int
  frozen_model_frozen : Bool
  retro_train_ds : Option RetroDS
  retro_validation_ds : Option RetroDS
  retro_test_ds : Option RetroDS
  train_ds : Option DS
  train_dl : Option DL
  validation_ds : Option DS
  validation_dl : Option DL
  test_ds : Option DS
  test_dl : Option DL
  layers : List Layer

/-- `__init__` (lines 45-91), restricted to the state of `ModelState`: the
style is parsed (line 53), `load_task_templates` runs on
`self.cfg.task_templates` (line 72), the pseudo-token vocabulary is built
and mapped through the tokenizer (lines 73-77), and the virtual prompt
source is selected (lines 80-91).  `tokenToId` abstracts
`self.tokenizer.tokens_to_ids`; `tokenizer_pad_id`/`tokenizer_unk_id` are
`self.tokenizer.pad_id` and `self.tokenizer.unk_id`. -/
def constructModel (DS DL RetroDS Layer : Type)
    (cfg_virtual_prompt_style : String)
    (cfg_task_templates : List TaskTemplateCfg) (new_tasks : List String)
    (tokenToId : String → Int) (tokenizer_pad_id : Option Int)
    (tokenizer_unk_id : Int) : Except InitError (ModelState DS DL RetroDS Layer) :=
  match virtualPromptStyleOfString cfg_virtual_prompt_style with
  | .error (.valueError m) => .error (.valueError m)
  | .ok virtual_prompt_style =>
  match load_task_templates new_tasks cfg_task_templates with
  | .error e => .error (.loadError e)
  | .ok res =>
  let pseudo_tokens := get_pseudo_tokens res.table.max_virtual_tokens
  let pseudo_token_ids := tokens_to_ids tokenToId pseudo_tokens
  let pseudo_token_ids_start := pseudo_token_ids.head?
  let pad_token_id :=
    match tokenizer_pad_id with
    | some p => p
    | none => tokenizer_unk_id
  match selectVirtualPromptSource virtual_prompt_style cfg_virtual_prompt_style with
  | .error (.valueError m) => .error (.valueError m)
  | .ok virtual_prompt_source =>
  .ok { virtual_prompt_style := virtual_prompt_style
        virtual_prompt_source := virtual_prompt_source
        task_templates := res.table.task_templates
        task_id_num_to_name := res.table.task_id_num_to_name
        max_virtual_tokens := res.table.max_virtual_tokens
        total_new_task_virtual_tokens := res.total_new_task_virtual_tokens
        pseudo_tokens := pseudo_tokens
        pseudo_token_ids := pseudo_token_ids
        pseudo_token_ids_start := pseudo_token_ids_start
        pad_token_id := pad_token_id
        frozen_model_frozen := false
        retro_train_ds := none
        retro_validation_ds := none
        retro_test_ds := none
        train_ds := none
        train_dl := none
        validation_ds := none
        validation_dl := none
        test_ds := none
        test_dl := none
        layers := [] }

/-- `setup_training_data` (lines 134-150): when the config has a `train_ds`
section, build the virtual prompt dataset and dataloader (an external
construction, passed in as `built`) and store them in `self._train_ds`,
`self._train_dl`. -/
def setup_training_data {DS DL RetroDS Layer : Type} (cfg_has_train_ds : Bool)
    (built : DS × DL) (st : ModelState DS DL RetroDS Layer) :
    ModelState DS DL RetroDS Layer :=
  if cfg_has_train_ds then
    { st with train_ds := some built.1, train_dl := some built.2 }
  else st

/-- `setup_validation_data` (lines 152-168). -/
def setup_validation_data {DS DL RetroDS Layer : Type} (cfg_has_validation_ds : Bool)
    (built : DS × DL) (st : ModelState DS DL RetroDS Layer) :
    ModelState DS DL RetroDS Layer :=
  if cfg_has_validation_ds then
    { st with validation_ds := some built.1, validation_dl := some built.2 }
  else st

/-- `setup_test_data` (lines 170-186). -/
def setup_test_data {DS DL RetroDS Layer : Type} (cfg_has_test_ds : Bool)
    (built : DS × DL) (st : ModelState DS DL RetroDS Layer) :
    ModelState DS DL RetroDS Layer :=
  if cfg_has_test_ds then
    { st with test_ds := some built.1, test_dl := some built.2 }
  else st

/-- `setup` (lines 94-132): in the predict/inference case only the frozen
model is frozen; otherwise the training and validation data are set up and
the three retro datasets (built by the external
`build_train_valid_test_datasets`, passed in as `retro_built`) are stored. -/
def setup {DS DL RetroDS Layer : Type} (stage : Option String)
    (cfg_has_train_ds cfg_has_validation_ds : Bool)
    (train_built validation_built : DS × DL)
    (retro_built : RetroDS × RetroDS × RetroDS)
    (st : ModelState DS DL RetroDS Layer) : ModelState DS DL RetroDS Layer :=
  if stage = some "predict" ∨ st.virtual_prompt_style = .inference then
    { st with frozen_model_frozen := true }
  else
    let st := setup_training_data cfg_has_train_ds train_built st
    let st := setup_validation_data cfg_has_validation_ds validation_built st
    { st with retro_train_ds := some retro_built.1
              retro_validation_ds := some retro_built.2.1
              retro_test_ds := some retro_built.2.2 }

/-- `build_virtual_prompt_dataset` (lines 188-256): constructs a dataset and
dataloader from the model's fields via external classes (abstracted by
`buildDS`/`buildDL`); it assigns no field of `self`, so the state is
returned unchanged alongside the result. -/
def build_virtual_prompt_dataset {DS DL RetroDS Layer : Type}
    (buildDS : List (String × TaskEntry) → List String → Int →
      VirtualPromptSource → DS)
    (buildDL : DS → DL) (st : ModelState DS DL RetroDS Layer) :
    ModelState DS DL RetroDS Layer × DS × DL :=
  let dataset := buildDS st.task_templates st.pseudo_tokens st.pad_token_id
    st.virtual_prompt_source
  let dataloader := buildDL dataset
  (st, dataset, dataloader)

/-- `collate_fn` as a method: it reads `self.virtual_prompt_source`,
`self.pad_token_id` and `self.pseudo_token_ids` and assigns no field of
`self`. -/
def collate_fn_method {DS DL RetroDS Layer : Type}
    (st : ModelState DS DL RetroDS Layer)
    (batch : List (List Int × List Int × Option Nat)) (tp_workers : Nat) :
    ModelState DS DL RetroDS Layer × Except CollateError CollateOutput :=
  (st, collate_fn st.virtual_prompt_source st.pad_token_id st.pseudo_token_ids
    batch tp_workers)

/-- `validation_step` (lines 312-323): the six batch tensors are consumed,
the forward pass and the data-parallel averaging are external (`forward`
and `average_losses`); no field of `self` is assigned. -/
def validation_step {DS DL RetroDS Layer : Type}
    (forward : List (List Int) → List (List Int) → List (List Int) →
      List (List Int) → List (List Int) → List ℚ)
    (average_losses : List ℚ → List ℚ)
    (st : ModelState DS DL RetroDS Layer)
    (batch : List (List Int) × List (List Int) × List (List ℚ) ×
      List (List Int) × List (List Int) × List (List Int)) :
    ModelState DS DL RetroDS Layer × List ℚ :=
  let input_tokens_id := batch.1
  let input_attn_mask := batch.2.1
  let loss_mask := batch.2.2.1
  let retrieved_ids := batch.2.2.2.1
  let retrieved_attn_mask := batch.2.2.2.2.1
  let labels := batch.2.2.2.2.2
  let loss := forward input_tokens_id input_attn_mask retrieved_ids
    retrieved_attn_mask labels
  let flat_mask := loss_mask.flatten
  let lm_loss := ((loss.zip flat_mask).map (fun p => p.1 * p.2)).sum / flat_mask.sum
  let reduced_loss := average_losses [lm_loss]
  (st, reduced_loss)

/-- `add_adapter` (lines 379-382): calls `add_adapter` on each layer
(abstracted by `layerAdd`); no field of `self` is reassigned. -/
def add_adapter {DS DL RetroDS Layer : Type} (layerAdd : Layer → Layer)
    (st : ModelState DS DL RetroDS Layer) : ModelState DS DL RetroDS Layer :=
  { st with layers := st.layers.map layerAdd }

/-- `get_enabled_adapters` (lines 384-390): collects names from the layers
(abstracted by `layerNames`); a pure read. -/
def get_enabled_adapters {DS DL RetroDS Layer : Type}
    (layerNames : Layer → List String) (st : ModelState DS DL RetroDS Layer) :
    ModelState DS DL RetroDS Layer × List String :=
  (st, (st.layers.map layerNames).flatten.dedup)

/-- `set_enabled_adapters` (lines 392-395): calls `set_enabled_adapters` on
each layer (abstracted by `layerSet`). -/
def set_enabled_adapters {DS DL RetroDS Layer : Type} (layerSet : Layer → Layer)
    (st : ModelState DS DL RetroDS Layer) : ModelState DS DL RetroDS Layer :=
  { st with layers := st.layers.map layerSet }

/-- `is_adapter_available` (lines 397-400): `any` over the layers
(abstracted by `layerAvail`); a pure read. -/
def is_adapter_available {DS DL RetroDS Layer : Type}
    (layerAvail : Layer → Bool) (st : ModelState DS DL RetroDS Layer) :
    ModelState DS DL RetroDS Layer × Bool :=
  (st, st.layers.any layerAvail)

/-- The task-template table and pseudo-token vocabulary fields of the model
state, as one tuple — the fields claim C7 is about. -/
def promptFields {DS DL RetroDS Layer : Type}
    (st : ModelState DS DL RetroDS Layer) :
    List (String × TaskEntry) × List (Nat × String) × Nat × List String ×
      List Int × Option Int :=
  (st.task_templates, st.task_id_num_to_name, st.max_virtual_tokens,
   st.pseudo_tokens, st.pseudo_token_ids, st.pseudo_token_ids_start)

/-! ## The k2 dependency guard (`nemo/core/utils/k2_guard.py`) -/

/-- The observable environment the guard module runs in: whether
`package_available("k2")` holds, and the release of `k2.__dev_version__`
(a `packaging.version.Version` release tuple). -/
structure K2Env where
  package_available : Bool
  dev_version : List Nat
deriving DecidableEq, Repr

/-- Lexicographic comparison of equal-length release tuples. -/
def lexLtNat : List Nat → List Nat → Bool
  | _, [] => false
  | [], _ :: _ => true
  | a :: as, b :: bs => a < b || (a == b && lexLtNat as bs)

/-- `packaging.version.Version` comparison restricted to release tuples:
the shorter tuple is padded with zeros, then compared lexicographically
(so `1.11 < 1.11.0` is false and `1.10.5 < 1.11` is true). -/
def versionLt (a b : List Nat) : Bool :=
  let n := max a.length b.length
  lexLtNat (a ++ List.replicate (n - a.length) 0)
    (b ++ List.replicate (n - b.length) 0)

/-- `__K2_MINIMUM_VERSION = Version("1.11")` (lines 27-30). -/
def K2_MINIMUM_VERSION : List Nat := [1, 11]

/-- `K2_INSTALLATION_MESSAGE` (lines 32-40). -/
def K2_INSTALLATION_MESSAGE : String :=
  "Could not import `k2`.\nPlease install k2 in one of the following ways:\n1) Run `bash scripts/speech_recognition/k2/setup.sh`\n2) (not recommended) Use any approach from https://k2-fsa.github.io/k2/installation/index.html if your your cuda and pytorch versions are supported.\nIt is advised to always install k2 using setup.sh only, as different versions of k2 may not interact with the NeMo code as expected."

/-- The two exceptions the guard module can raise: `ModuleNotFoundError`
with the installation message (line 43), or `ImportError` reporting the
minimum required and the installed versions (lines 49-57). -/
inductive K2GuardError where
  | moduleNotFoundError (message : String)
  | importError (minimum_version installed_version : List Nat)
deriving DecidableEq, Repr

/-- The module body of `k2_guard.py` (lines 42-57): if `k2` is not
available raise `ModuleNotFoundError(K2_INSTALLATION_MESSAGE)`; otherwise
load it, and if its version is below the minimum raise `ImportError`
reporting both versions; otherwise the module ends normally, exposing `k2`
(the loaded module, represented by the environment it was loaded from). -/
def k2_guard (env : K2Env) : Except K2GuardError K2Env :=
  if ¬ env.package_available then
    .error (.moduleNotFoundError K2_INSTALLATION_MESSAGE)
  else if versionLt env.dev_version K2_MINIMUM_VERSION then
    .error (.importError K2_MINIMUM_VERSION env.dev_version)
  else
    .ok env

/-! ## Helper definitions for the proofs -/

/-- A concrete task template named "A" declaring 1 virtual token. -/
def taskA1 : TaskTemplateCfg :=
  { taskname := "A", prompt_template := "<|VIRTUAL_PROMPT_0|>{text}", answer_only_loss := false
    answer_field := none, truncate_field := none, total_virtual_tokens := 1
    virtual_token_splits := [1] }

/-- A concrete task template named "B" declaring 2 virtual tokens. -/
def taskB2 : TaskTemplateCfg :=
  { taskname := "B", prompt_template := "<|VIRTUAL_PROMPT_0|>{text}", answer_only_loss := false
    answer_field := none, truncate_field := none, total_virtual_tokens := 2
    virtual_token_splits := [2] }

/-- A concrete task template named "A" declaring 0 virtual tokens. -/
def taskA0 : TaskTemplateCfg :=
  { taskname := "A", prompt_template := "{text}", answer_only_loss := false
    answer_field := none, truncate_field := none, total_virtual_tokens := 0
    virtual_token_splits := [] }

/-- The concrete model state produced by constructing the model with style
'p-tuning', an empty task-template list and no new tasks. -/
def pTuningModelState : ModelState Unit Unit Unit Unit :=
  { virtual_prompt_style := .p_tuning
    virtual_prompt_source := .prompt_encoder
    task_templates := []
    task_id_num_to_name := []
    max_virtual_tokens := 0
    total_new_task_virtual_tokens := none
    pseudo_tokens := []
    pseudo_token_ids := []
    pseudo_token_ids_start := none
    pad_token_id := 0
    frozen_model_frozen := false
    retro_train_ds := none
    retro_validation_ds := none
    retro_test_ds := none
    train_ds := none
    train_dl := none
    validation_ds := none
    validation_dl := none
    test_ds := none
    test_dl := none
    layers := [] }

/-- Numeric value of a decimal digit character. -/
def digitCharVal (c : Char) : Nat := c.toNat - '0'.toNat

/-- Value of a decimal digit string, left fold with accumulator. -/
def digitsValAux : Nat → List Char → Nat
  | a, [] => a
  | a, c :: cs => digitsValAux (a * 10 + digitCharVal c) cs

/-- Value of a decimal digit string. -/
def digitsVal (l : List Char) : Nat := digitsValAux 0 l

/-! # Theorems -/

theorem digitsValAux_cons (a : Nat) (c : Char) (cs : List Char) :
    digitsValAux a (c :: cs) = digitsValAux (a * 10 + digitCharVal c) cs := rfl

theorem digitsValAux_nil (a : Nat) : digitsValAux a [] = a := rfl

theorem digitsVal_nil : digitsVal [] = 0 := rfl

theorem digitsVal_cons (c : Char) (cs : List Char) :
    digitsVal (c :: cs) = digitsValAux (0 * 10 + digitCharVal c) cs := rfl

theorem digitsValAux_eq (l : List Char) :
    ∀ a, digitsValAux a l = a * 10 ^ l.length + digitsVal l := by
  induction l with
  | nil => intro a; rw [digitsValAux_nil, digitsVal_nil]; simp
  | cons c cs ih =>
    intro a
    rw [digitsValAux_cons, ih]
    rw [digitsVal_cons, ih (0 * 10 + digitCharVal c)]
    simp only [List.length_cons, pow_succ]
    ring

theorem digitCharVal_digitChar : ∀ d, d < 10 → digitCharVal (Nat.digitChar d) = d := by
  decide

theorem digitsVal_toDigitsCore :
    ∀ fuel n acc, n < fuel →
      digitsVal (Nat.toDigitsCore 10 fuel n acc) = n * 10 ^ acc.length + digitsVal acc := by
  intro fuel
  induction fuel with
  | zero => intro n acc h; omega
  | succ fuel ih =>
    intro n acc h
    have hstep : Nat.toDigitsCore 10 (fuel + 1) n acc =
        if n / 10 = 0 then Nat.digitChar (n % 10) :: acc
        else Nat.toDigitsCore 10 fuel (n / 10) (Nat.digitChar (n % 10) :: acc) := rfl
    rw [hstep]
    have hd : digitCharVal (Nat.digitChar (n % 10)) = n % 10 :=
      digitCharVal_digitChar (n % 10) (by omega)
    by_cases hdiv : n / 10 = 0
    · simp only [hdiv, if_true]
      rw [digitsVal_cons, digitsValAux_eq, hd]
      have hmod : n % 10 = n := by omega
      rw [hmod]
      ring
    · simp only [hdiv, if_false]
      have hrec : n / 10 < fuel := by
        have h1 : n / 10 < n := Nat.div_lt_self (by omega) (by omega)
        omega
      rw [ih (n / 10) _ hrec, digitsVal_cons, digitsValAux_eq, hd]
      simp only [List.length_cons, pow_succ]
      set q := n / 10 with hq
      set r := n % 10 with hr
      have hsplit : n = 10 * q + r := by omega
      rw [hsplit]
      ring

theorem digitsVal_toDigits (n : Nat) : digitsVal (Nat.toDigits 10 n) = n := by
  have h := digitsVal_toDigitsCore (n + 1) n [] (Nat.lt_succ_self n)
  simpa [Nat.toDigits, digitsVal_nil] using h

theorem natRepr_injective : Function.Injective Nat.repr := by
  intro m n h
  have hdata : Nat.toDigits 10 m = Nat.toDigits 10 n := congrArg String.data h
  calc m = digitsVal (Nat.toDigits 10 m) := (digitsVal_toDigits m).symm
    _ = digitsVal (Nat.toDigits 10 n) := by rw [hdata]
    _ = n := digitsVal_toDigits n

theorem pseudo_token_string_injective :
    Function.Injective (fun i : Nat =>
      VirtualPromptPlaceholderTokenBase ++ Nat.repr i ++ VirtualPromptPlaceholderTokenEnd) := by
  intro i j h
  apply natRepr_injective
  simp only at h
  have hdata : VirtualPromptPlaceholderTokenBase.data ++
      ((Nat.repr i).data ++ VirtualPromptPlaceholderTokenEnd.data) =
      VirtualPromptPlaceholderTokenBase.data ++
      ((Nat.repr j).data ++ VirtualPromptPlaceholderTokenEnd.data) := by
    have := congrArg String.data h
    simpa [String.data_append, List.append_assoc] using this
  have hmid : (Nat.repr i).data ++ VirtualPromptPlaceholderTokenEnd.data =
      (Nat.repr j).data ++ VirtualPromptPlaceholderTokenEnd.data :=
    List.append_cancel_left hdata
  have hd : (Nat.repr i).data = (Nat.repr j).data := List.append_cancel_right hmid
  exact String.ext hd

/-- C1: `get_pseudo_tokens(n)` returns a list of exactly `n` pairwise
distinct strings whose `i`-th element is the placeholder base marker,
the decimal representation of `i`, and the end marker. -/
theorem C1_get_pseudo_tokens_spec (n : Nat) :
    (get_pseudo_tokens n).length = n ∧
    (get_pseudo_tokens n).Nodup ∧
    ∀ i, i < n → (get_pseudo_tokens n)[i]? =
      some (VirtualPromptPlaceholderTokenBase ++ Nat.repr i ++
        VirtualPromptPlaceholderTokenEnd) := by
  refine ⟨by simp [get_pseudo_tokens], ?_, ?_⟩
  · exact (List.nodup_range n).map pseudo_token_string_injective
  · intro i hi
    simp [get_pseudo_tokens, List.getElem?_map, List.getElem?_range, hi]

theorem C1_get_pseudo_tokens_spec_witness :
    (get_pseudo_tokens 3).length = 3 ∧ (get_pseudo_tokens 3).Nodup ∧
    (get_pseudo_tokens 3)[0]? = some "<prompt_0>" ∧
    (get_pseudo_tokens 3)[1]? = some "<prompt_1>" ∧
    (get_pseudo_tokens 3)[2]? = some "<prompt_2>" := by
  obtain ⟨h1, h2, h3⟩ := C1_get_pseudo_tokens_spec 3
  refine ⟨h1, h2, ?_, ?_, ?_⟩
  · rw [h3 0 (by decide)]; rfl
  · rw [h3 1 (by decide)]; rfl
  · rw [h3 2 (by decide)]; rfl

/-- C9: for `batch_max ≥ 1` and `tp_workers > 1` the residual padding
`(tp_workers - (batch_max - 1) % tp_workers) % tp_workers` is strictly less
than `tp_workers`, and after adding it `batch_max - 1` (the sequence length
after the one-token trim of `collate_fn`) is divisible by `tp_workers`; for
`tp_workers ≤ 1` the padding is `0`. -/
theorem C9_resi_padding_spec (tp_workers batch_max : Nat) :
    (1 < tp_workers →
      resi_padding tp_workers batch_max =
        (tp_workers - (batch_max - 1) % tp_workers) % tp_workers ∧
      resi_padding tp_workers batch_max < tp_workers ∧
      (1 ≤ batch_max →
        (batch_max + resi_padding tp_workers batch_max - 1) % tp_workers = 0)) ∧
    (tp_workers ≤ 1 → resi_padding tp_workers batch_max = 0) := by
  constructor
  · intro htp
    have htp0 : 0 < tp_workers := by omega
    have hresi : resi_padding tp_workers batch_max =
        (tp_workers - (batch_max - 1) % tp_workers) % tp_workers := by
      unfold resi_padding
      rw [if_pos htp]
    refine ⟨hresi, ?_, ?_⟩
    · rw [hresi]
      exact Nat.mod_lt _ htp0
    · intro hbm
      rw [hresi]
      set m := (batch_max - 1) % tp_workers with hm
      have hmlt : m < tp_workers := Nat.mod_lt _ htp0
      obtain ⟨q, hq2⟩ : ∃ q, batch_max - 1 = tp_workers * q + m :=
        ⟨(batch_max - 1) / tp_workers, by rw [hm]; exact (Nat.div_add_mod _ _).symm⟩
      by_cases hm0 : m = 0
      · have hr : (tp_workers - m) % tp_workers = 0 := by
          rw [hm0, Nat.sub_zero, Nat.mod_self]
        rw [hr]
        have h2 : batch_max + 0 - 1 = tp_workers * q := by omega
        rw [h2]
        exact Nat.mul_mod_right _ _
      · have hr : (tp_workers - m) % tp_workers = tp_workers - m :=
          Nat.mod_eq_of_lt (by omega)
        rw [hr]
        have h2 : batch_max + (tp_workers - m) - 1 = tp_workers * q + tp_workers := by omega
        rw [h2, ← Nat.mul_succ]
        exact Nat.mul_mod_right _ _
  · intro htp
    unfold resi_padding
    rw [if_neg (by omega)]

theorem C9_resi_padding_spec_witness :
    resi_padding 4 10 < 4 ∧ (10 + resi_padding 4 10 - 1) % 4 = 0 ∧
    resi_padding 1 10 = 0 := by
  have h4 := C9_resi_padding_spec 4 10
  have h1 := C9_resi_padding_spec 1 10
  obtain ⟨ha, hb, hc⟩ := h4.1 (by decide)
  exact ⟨hb, hc (by decide), h1.2 (by decide)⟩

/-- C4: the k2 guard raises `ModuleNotFoundError` with the installation
instructions when the package is unavailable, raises `ImportError` reporting
the minimum version 1.11 and the installed version when the installed
version is below 1.11 — in both failure cases without exposing k2 — and
succeeds exposing k2 when the version is at least 1.11. -/
theorem C4_k2_guard_spec (env : K2Env) :
    K2_MINIMUM_VERSION = [1, 11] ∧
    (env.package_available = false →
      k2_guard env = .error (.moduleNotFoundError K2_INSTALLATION_MESSAGE)) ∧
    (env.package_available = true →
      versionLt env.dev_version K2_MINIMUM_VERSION = true →
      k2_guard env = .error (.importError K2_MINIMUM_VERSION env.dev_version)) ∧
    (env.package_available = true →
      versionLt env.dev_version K2_MINIMUM_VERSION = false →
      k2_guard env = .ok env) := by
  refine ⟨rfl, ?_, ?_, ?_⟩
  · intro h1
    simp [k2_guard, h1]
  · intro h1 h2
    simp [k2_guard, h1, h2]
  · intro h1 h2
    simp [k2_guard, h1, h2]

theorem C4_k2_guard_spec_witness :
    k2_guard ⟨false, [1, 23, 4]⟩ =
      .error (.moduleNotFoundError K2_INSTALLATION_MESSAGE) ∧
    k2_guard ⟨true, [1, 10, 2]⟩ = .error (.importError [1, 11] [1, 10, 2]) ∧
    k2_guard ⟨true, [1, 11]⟩ = .ok ⟨true, [1, 11]⟩ := by
  refine ⟨(C4_k2_guard_spec ⟨false, [1, 23, 4]⟩).2.1 rfl, ?_, ?_⟩
  · have h := (C4_k2_guard_spec ⟨true, [1, 10, 2]⟩).2.2.1 rfl (by decide)
    simpa using h
  · exact (C4_k2_guard_spec ⟨true, [1, 11]⟩).2.2.2 rfl (by decide)

theorem collate_fn_reduces (virtual_prompt_source : VirtualPromptSource)
    (pad_token_id : Int) (pseudo_token_ids : List Int)
    (batch : List (List Int × List Int × Option Nat)) (tp_workers : Nat) :
    collate_fn virtual_prompt_source pad_token_id pseudo_token_ids batch tp_workers =
      if batch.isEmpty then .error .valueErrorEmptyBatch
      else .error .danglingRetroTrainDsAccess := rfl

/-- C6: `collate_fn` is incomplete — its body reaches the dangling attribute
access on the undefined name `retro_train_ds` on every non-empty batch, so
it never returns the stated six-element result. -/
theorem C6_collate_fn_never_returns (virtual_prompt_source : VirtualPromptSource)
    (pad_token_id : Int) (pseudo_token_ids : List Int)
    (batch : List (List Int × List Int × Option Nat)) (tp_workers : Nat) :
    (∀ out : CollateOutput,
      collate_fn virtual_prompt_source pad_token_id pseudo_token_ids batch
        tp_workers ≠ .ok out) ∧
    (batch ≠ [] →
      collate_fn virtual_prompt_source pad_token_id pseudo_token_ids batch
        tp_workers = .error .danglingRetroTrainDsAccess) := by
  rw [collate_fn_reduces]
  constructor
  · intro out
    by_cases h : batch.isEmpty <;> simp [h]
  · intro h
    rw [if_neg (by simpa [List.isEmpty_iff] using h)]

theorem C6_collate_fn_never_returns_witness :
    (∀ out : CollateOutput,
      collate_fn .prompt_table 0 [] [([0], [1, 2, 3], some 1)] 0 ≠ .ok out) ∧
    collate_fn .prompt_table 0 [] [([0], [1, 2, 3], some 1)] 0 =
      .error .danglingRetroTrainDsAccess := by
  have h := C6_collate_fn_never_returns .prompt_table 0 [] [([0], [1, 2, 3], some 1)] 0
  exact ⟨h.1, h.2 (by decide)⟩

theorem constructModel_style_ok (DS DL RetroDS Layer : Type) (s : String)
    (cfg_task_templates : List TaskTemplateCfg) (new_tasks : List String)
    (tokenToId : String → Int) (pad_id : Option Int) (unk_id : Int)
    (sty : VirtualPromptStyle) (src : VirtualPromptSource)
    (hsty : virtualPromptStyleOfString s = .ok sty)
    (hsrc : selectVirtualPromptSource sty s = .ok src) :
    (∀ m, constructModel DS DL RetroDS Layer s cfg_task_templates new_tasks
      tokenToId pad_id unk_id ≠ .error (.valueError m)) ∧
    (∀ st, constructModel DS DL RetroDS Layer s cfg_task_templates new_tasks
      tokenToId pad_id unk_id = .ok st → st.virtual_prompt_source = src) := by
  cases hload : load_task_templates new_tasks cfg_task_templates with
  | error e =>
    constructor
    · intro m
      simp [constructModel, hsty, hload]
    · intro st h
      simp [constructModel, hsty, hload] at h
  | ok r =>
    constructor
    · intro m
      simp [constructModel, hsty, hload, hsrc]
    · intro st h
      simp [constructModel, hsty, hload, hsrc] at h
      rw [← h]

/-- C5: an unrecognized `virtual_prompt_style` config value makes model
construction raise `ValueError`; each recognized style avoids that error
and, when construction succeeds, sets `virtual_prompt_source` to
PROMPT_TABLE for 'prompt-tuning' and 'inference', PROMPT_ENCODER for
'p-tuning', and NO_PROMPT for 'no-prompt'. -/
theorem C5_virtual_prompt_style_spec (DS DL RetroDS Layer : Type) (s : String)
    (cfg_task_templates : List TaskTemplateCfg) (new_tasks : List String)
    (tokenToId : String → Int) (pad_id : Option Int) (unk_id : Int) :
    ((s ≠ "prompt-tuning" ∧ s ≠ "p-tuning" ∧ s ≠ "inference" ∧ s ≠ "no-prompt") →
      ∃ m, constructModel DS DL RetroDS Layer s cfg_task_templates new_tasks
        tokenToId pad_id unk_id = .error (.valueError m)) ∧
    ((s = "prompt-tuning" ∨ s = "p-tuning" ∨ s = "inference" ∨ s = "no-prompt") →
      (∀ m, constructModel DS DL RetroDS Layer s cfg_task_templates new_tasks
        tokenToId pad_id unk_id ≠ .error (.valueError m)) ∧
      (∀ st, constructModel DS DL RetroDS Layer s cfg_task_templates new_tasks
          tokenToId pad_id unk_id = .ok st →
        ((s = "prompt-tuning" ∨ s = "inference") →
          st.virtual_prompt_source = .prompt_table) ∧
        (s = "p-tuning" → st.virtual_prompt_source = .prompt_encoder) ∧
        (s = "no-prompt" → st.virtual_prompt_source = .no_prompt))) := by
  constructor
  · rintro ⟨h1, h2, h3, h4⟩
    refine ⟨s!"'{s}' is not a valid VirtualPromptStyle", ?_⟩
    simp [constructModel, virtualPromptStyleOfString, h1, h2, h3, h4]
  · intro hrec
    rcases hrec with h | h | h | h <;> subst h
    · have hc := constructModel_style_ok DS DL RetroDS Layer "prompt-tuning"
        cfg_task_templates new_tasks tokenToId pad_id unk_id
        .prompt_tuning .prompt_table rfl rfl
      refine ⟨hc.1, fun st hok => ⟨fun _ => hc.2 st hok, ?_, ?_⟩⟩ <;> intro hbad <;>
        simp at hbad
    · have hc := constructModel_style_ok DS DL RetroDS Layer "p-tuning"
        cfg_task_templates new_tasks tokenToId pad_id unk_id
        .p_tuning .prompt_encoder rfl rfl
      refine ⟨hc.1, fun st hok => ⟨?_, fun _ => hc.2 st hok, ?_⟩⟩ <;> intro hbad <;>
        simp at hbad
    · have hc := constructModel_style_ok DS DL RetroDS Layer "inference"
        cfg_task_templates new_tasks tokenToId pad_id unk_id
        .inference .prompt_table rfl rfl
      refine ⟨hc.1, fun st hok => ⟨fun _ => hc.2 st hok, ?_, ?_⟩⟩ <;> intro hbad <;>
        simp at hbad
    · have hc := constructModel_style_ok DS DL RetroDS Layer "no-prompt"
        cfg_task_templates new_tasks tokenToId pad_id unk_id
        .no_prompt .no_prompt rfl rfl
      refine ⟨hc.1, fun st hok => ⟨?_, ?_, fun _ => hc.2 st hok⟩⟩ <;> intro hbad <;>
        simp at hbad

theorem C5_virtual_prompt_style_spec_witness :
    constructModel Unit Unit Unit Unit "banana" [] [] (fun _ => 0) none 0 =
      .error (.valueError "'banana' is not a valid VirtualPromptStyle") ∧
    constructModel Unit Unit Unit Unit "p-tuning" [] [] (fun _ => 0) none 0 =
      .ok pTuningModelState ∧
    pTuningModelState.virtual_prompt_source = .prompt_encoder := by
  have hok : constructModel Unit Unit Unit Unit "p-tuning" [] [] (fun _ => 0) none 0 =
      .ok pTuningModelState := by rfl
  have h2 := (C5_virtual_prompt_style_spec Unit Unit Unit Unit "p-tuning" [] []
      (fun _ => 0) none 0).2 (Or.inr (Or.inl rfl))
  have h3 := (C5_virtual_prompt_style_spec Unit Unit Unit Unit "banana" [] []
      (fun _ => 0) none 0).1 ⟨by decide, by decide, by decide, by decide⟩
  exact ⟨by rfl, hok, (h2.2 pTuningModelState hok).2.1 rfl⟩

/-! ## Dictionary lemmas -/

theorem dictGet?_nil {α β : Type} [DecidableEq α] (k : α) :
    dictGet? ([] : List (α × β)) k = none := rfl

theorem dictGet?_cons {α β : Type} [DecidableEq α] (a : α × β) (d : List (α × β))
    (k : α) : dictGet? (a :: d) k = if a.1 = k then some a.2 else dictGet? d k := by
  by_cases h : a.1 = k <;> simp [dictGet?, List.find?_cons, h]

theorem dictGet?_map_set_self {α β : Type} [DecidableEq α] (k : α) (v : β) :
    ∀ d : List (α × β), d.any (fun p => decide (p.1 = k)) = true →
      dictGet? (d.map (fun p => if p.1 = k then (k, v) else p)) k = some v := by
  intro d
  induction d with
  | nil => intro h; simp at h
  | cons a rest ih =>
    intro h
    rw [List.map_cons]
    by_cases hh : a.1 = k
    · rw [if_pos hh, dictGet?_cons]
      simp
    · rw [if_neg hh, dictGet?_cons, if_neg hh]
      apply ih
      simpa [List.any_cons, hh] using h

theorem dictGet?_map_set_other {α β : Type} [DecidableEq α] (k : α) (v : β)
    (k' : α) (h : k' ≠ k) :
    ∀ d : List (α × β),
      dictGet? (d.map (fun p => if p.1 = k then (k, v) else p)) k' =
        dictGet? d k' := by
  intro d
  induction d with
  | nil => rfl
  | cons a rest ih =>
    rw [List.map_cons, dictGet?_cons]
    by_cases hh : a.1 = k
    · rw [if_pos hh]
      have h1 : ¬ ((k, v).1 = k') := fun he => h (he.symm)
      have h2 : ¬ (a.1 = k') := by
        rw [hh]
        exact fun he => h he.symm
      rw [if_neg h1, dictGet?_cons, if_neg h2]
      exact ih
    · rw [if_neg hh, dictGet?_cons]
      by_cases h2 : a.1 = k' <;> simp [h2, ih]

theorem dictGet?_append_single {α β : Type} [DecidableEq α] (d : List (α × β))
    (k : α) (v : β) (k' : α) :
    dictGet? (d ++ [(k, v)]) k' =
      match dictGet? d k' with
      | some w => some w
      | none => if k = k' then some v else none := by
  induction d with
  | nil =>
    rw [List.nil_append, dictGet?_nil, dictGet?_cons, dictGet?_nil]
  | cons a rest ih =>
    rw [List.cons_append, dictGet?_cons, dictGet?_cons]
    by_cases hh : a.1 = k' <;> simp [hh, ih]

theorem dictGet?_eq_none_of_not_any {α β : Type} [DecidableEq α]
    (d : List (α × β)) (k : α)
    (h : ¬ d.any (fun p => decide (p.1 = k)) = true) : dictGet? d k = none := by
  induction d with
  | nil => rfl
  | cons a rest ih =>
    rw [dictGet?_cons]
    by_cases hh : a.1 = k
    · exact absurd (by simp [List.any_cons, hh]) h
    · rw [if_neg hh]
      exact ih (fun hr => h (by simp [List.any_cons, hr]))

theorem dictGet?_dictSet_self {α β : Type} [DecidableEq α] (d : List (α × β))
    (k : α) (v : β) : dictGet? (dictSet d k v) k = some v := by
  unfold dictSet
  by_cases hany : d.any (fun p => decide (p.1 = k)) = true
  · rw [if_pos hany]
    exact dictGet?_map_set_self k v d hany
  · rw [if_neg hany, dictGet?_append_single,
      dictGet?_eq_none_of_not_any d k hany]
    simp

theorem dictGet?_dictSet_other {α β : Type} [DecidableEq α] (d : List (α × β))
    (k k' : α) (v : β) (h : k' ≠ k) :
    dictGet? (dictSet d k v) k' = dictGet? d k' := by
  unfold dictSet
  by_cases hany : d.any (fun p => decide (p.1 = k)) = true
  · rw [if_pos hany]
    exact dictGet?_map_set_other k v k' h d
  · rw [if_neg hany, dictGet?_append_single]
    cases hd : dictGet? d k' with
    | some w => rfl
    | none => exact if_neg (fun he => h he.symm)

/-! ## The task-template loop -/

theorem loadTaskTemplatesLoop_cons (t : TaskTemplateCfg)
    (rest : List TaskTemplateCfg) (n : Nat) (st : TaskTemplateTable) :
    loadTaskTemplatesLoop (t :: rest) n st =
      loadTaskTemplatesLoop rest (n + 1) (loadTaskTemplatesStep st n t) := rfl

theorem loadTaskTemplatesLoop_preserves_names (tasks : List TaskTemplateCfg) :
    ∀ (n : Nat) (st : TaskTemplateTable) (name : String),
      (∀ t ∈ tasks, t.taskname ≠ name) →
      dictGet? (loadTaskTemplatesLoop tasks n st).task_templates name =
        dictGet? st.task_templates name := by
  induction tasks with
  | nil => intro n st name _; rfl
  | cons t rest ih =>
    intro n st name h
    rw [loadTaskTemplatesLoop_cons,
      ih (n + 1) _ name (fun x hx => h x (List.mem_cons_of_mem _ hx))]
    exact dictGet?_dictSet_other _ _ _ _
      (fun he => h t (List.mem_cons_self _ _) he.symm)

theorem loadTaskTemplatesLoop_preserves_ids (tasks : List TaskTemplateCfg) :
    ∀ (n : Nat) (st : TaskTemplateTable) (i : Nat), i < n →
      dictGet? (loadTaskTemplatesLoop tasks n st).task_id_num_to_name i =
        dictGet? st.task_id_num_to_name i := by
  induction tasks with
  | nil => intro n st i _; rfl
  | cons t rest ih =>
    intro n st i hi
    rw [loadTaskTemplatesLoop_cons, ih (n + 1) _ i (by omega)]
    exact dictGet?_dictSet_other _ _ _ _ (by omega)

theorem loadTaskTemplatesLoop_id_map (tasks : List TaskTemplateCfg) :
    ∀ (n : Nat) (st : TaskTemplateTable) (i : Nat) (h : i < tasks.length),
      dictGet? (loadTaskTemplatesLoop tasks n st).task_id_num_to_name (n + i) =
        some (tasks.get ⟨i, h⟩).taskname := by
  induction tasks with
  | nil => intro n st i h; exact absurd h (by simp)
  | cons t rest ih =>
    intro n st i h
    cases i with
    | zero =>
      rw [loadTaskTemplatesLoop_cons,
        loadTaskTemplatesLoop_preserves_ids rest (n + 1) _ (n + 0) (by omega)]
      show dictGet? (dictSet st.task_id_num_to_name n t.taskname) (n + 0) = _
      rw [Nat.add_zero, dictGet?_dictSet_self]
      rfl
    | succ j =>
      rw [loadTaskTemplatesLoop_cons, show n + (j + 1) = (n + 1) + j by omega]
      exact ih (n + 1) _ j (by simpa using Nat.lt_of_succ_lt_succ h)

theorem loadTaskTemplatesLoop_name_map (tasks : List TaskTemplateCfg) :
    ∀ (n : Nat) (st : TaskTemplateTable),
      (tasks.map TaskTemplateCfg.taskname).Nodup →
      ∀ (i : Nat) (h : i < tasks.length),
        dictGet? (loadTaskTemplatesLoop tasks n st).task_templates
            (tasks.get ⟨i, h⟩).taskname =
          some (mkTaskEntry (tasks.get ⟨i, h⟩) (n + i)) := by
  induction tasks with
  | nil => intro n st _ i h; exact absurd h (by simp)
  | cons t rest ih =>
    intro n st hnodup i h
    rw [List.map_cons] at hnodup
    have hnd := List.nodup_cons.mp hnodup
    cases i with
    | zero =>
      have hrest : ∀ x ∈ rest, x.taskname ≠ t.taskname := by
        intro x hx he
        exact hnd.1 (List.mem_map.mpr ⟨x, hx, he⟩)
      rw [loadTaskTemplatesLoop_cons]
      show dictGet? (loadTaskTemplatesLoop rest (n + 1)
        (loadTaskTemplatesStep st n t)).task_templates t.taskname = _
      rw [loadTaskTemplatesLoop_preserves_names rest (n + 1) _ t.taskname hrest]
      show dictGet? (dictSet st.task_templates t.taskname (mkTaskEntry t n))
        t.taskname = _
      rw [dictGet?_dictSet_self, Nat.add_zero]
      rfl
    | succ j =>
      rw [loadTaskTemplatesLoop_cons, show n + (j + 1) = (n + 1) + j by omega]
      exact ih (n + 1) _ hnd.2 j (by simpa using Nat.lt_of_succ_lt_succ h)

/-- C3 (amended): `load_task_templates` assigns ids in input order —
`task_id_num_to_name` maps `i` to the `i`-th taskname for every input list,
and, provided the tasknames of the list are pairwise distinct, the entry
stored under the `i`-th taskname is the `i`-th task's record with
`task_id_num = i`. -/
theorem C3_load_task_templates_ids_in_order (tasks : List TaskTemplateCfg) :
    (∀ (i : Nat) (h : i < tasks.length),
      dictGet? (buildTaskTemplates tasks).task_id_num_to_name i =
        some (tasks.get ⟨i, h⟩).taskname) ∧
    ((tasks.map TaskTemplateCfg.taskname).Nodup →
      ∀ (i : Nat) (h : i < tasks.length),
        dictGet? (buildTaskTemplates tasks).task_templates
            (tasks.get ⟨i, h⟩).taskname =
          some (mkTaskEntry (tasks.get ⟨i, h⟩) i) ∧
        (mkTaskEntry (tasks.get ⟨i, h⟩) i).task_id_num = i) := by
  constructor
  · intro i h
    have := loadTaskTemplatesLoop_id_map tasks 0 ⟨[], [], 0⟩ i h
    simpa [buildTaskTemplates] using this
  · intro hnodup i h
    have := loadTaskTemplatesLoop_name_map tasks 0 ⟨[], [], 0⟩ hnodup i h
    exact ⟨by simpa [buildTaskTemplates] using this, rfl⟩

theorem C3_load_task_templates_ids_in_order_witness :
    dictGet? (buildTaskTemplates [taskA1, taskB2]).task_id_num_to_name 0 =
      some "A" ∧
    dictGet? (buildTaskTemplates [taskA1, taskB2]).task_id_num_to_name 1 =
      some "B" ∧
    dictGet? (buildTaskTemplates [taskA1, taskB2]).task_templates "B" =
      some (mkTaskEntry taskB2 1) ∧
    (mkTaskEntry taskB2 1).task_id_num = 1 := by
  have h := C3_load_task_templates_ids_in_order [taskA1, taskB2]
  have h2 := h.2 (by decide) 1 (by decide)
  exact ⟨h.1 0 (by decide), h.1 1 (by decide), h2.1, h2.2⟩

/-- C3 counterexample: with the duplicated taskname "A" (the same task
listed twice), the entry stored under the 0-th task's taskname has
`task_id_num = 1`, not `0` as the claim states for every input list. -/
theorem C3_counterexample_duplicate_taskname :
    ([taskA1, taskA1].get ⟨0, by decide⟩).taskname = "A" ∧
    dictGet? (buildTaskTemplates [taskA1, taskA1]).task_templates "A" =
      some (mkTaskEntry taskA1 1) ∧
    (mkTaskEntry taskA1 1).task_id_num ≠ 0 := by
  refine ⟨rfl, rfl, by decide⟩

theorem checkNewTasksAgree_cons (d : List (String × TaskEntry)) (total : Nat)
    (t : String) (ts : List String) :
    checkNewTasksAgree d total (t :: ts) =
      match dictGet? d t with
      | none => .error (.keyError t)
      | some entry =>
        if entry.total_virtual_tokens = total then checkNewTasksAgree d total ts
        else .error (.assertionError totalVirtualTokensAssertMessage) := rfl

theorem checkNewTasksAgree_spec (d : List (String × TaskEntry)) (total : Nat) :
    ∀ l : List String,
      (∀ t ∈ l, ∃ e, dictGet? d t = some e) →
      ((∃ t ∈ l, ∃ e, dictGet? d t = some e ∧ e.total_virtual_tokens ≠ total) →
        checkNewTasksAgree d total l =
          .error (.assertionError totalVirtualTokensAssertMessage)) ∧
      ((∀ t ∈ l, ∀ e, dictGet? d t = some e → e.total_virtual_tokens = total) →
        checkNewTasksAgree d total l = .ok ()) := by
  intro l
  induction l with
  | nil =>
    intro _
    constructor
    · rintro ⟨t, ht, _⟩
      simp at ht
    · intro _
      rfl
  | cons t ts ih =>
    intro hall
    obtain ⟨e, he⟩ := hall t (List.mem_cons_self _ _)
    have ihts := ih (fun x hx => hall x (List.mem_cons_of_mem _ hx))
    constructor
    · rintro ⟨t', ht', e', he', hne⟩
      simp only [checkNewTasksAgree_cons, he]
      rcases List.mem_cons.mp ht' with h | h
      · subst h
        rw [he] at he'
        cases he'
        rw [if_neg hne]
      · by_cases hagree : e.total_virtual_tokens = total
        · rw [if_pos hagree]
          exact ihts.1 ⟨t', h, e', he', hne⟩
        · rw [if_neg hagree]
    · intro hag
      simp only [checkNewTasksAgree_cons, he]
      rw [if_pos (hag t (List.mem_cons_self _ _) e he)]
      exact ihts.2 (fun x hx ex hex => hag x (List.mem_cons_of_mem _ hx) ex hex)

theorem load_task_templates_cons (t0 : String) (rest : List String)
    (tasks : List TaskTemplateCfg) :
    load_task_templates (t0 :: rest) tasks =
      match dictGet? (buildTaskTemplates tasks).task_templates t0 with
      | none => .error (.keyError t0)
      | some first_entry =>
        match checkNewTasksAgree (buildTaskTemplates tasks).task_templates
            first_entry.total_virtual_tokens (t0 :: rest) with
        | .error e => .error e
        | .ok () => .ok ⟨buildTaskTemplates tasks,
            some first_entry.total_virtual_tokens⟩ := rfl

/-- C2 (amended): when `new_tasks` is non-empty and every name in it is a
key of the loaded task-template table, `load_task_templates` raises the
assertion error about matching virtual-token counts exactly when some new
task's `total_virtual_tokens` differs from the first new task's, and never
raises it when all counts agree. -/
theorem C2_load_task_templates_assert (tasks : List TaskTemplateCfg)
    (t0 : String) (rest : List String) (e0 : TaskEntry)
    (he0 : dictGet? (buildTaskTemplates tasks).task_templates t0 = some e0)
    (hall : ∀ t ∈ t0 :: rest, ∃ e,
      dictGet? (buildTaskTemplates tasks).task_templates t = some e) :
    ((∃ t ∈ t0 :: rest, ∃ e,
        dictGet? (buildTaskTemplates tasks).task_templates t = some e ∧
        e.total_virtual_tokens ≠ e0.total_virtual_tokens) →
      load_task_templates (t0 :: rest) tasks =
        .error (.assertionError totalVirtualTokensAssertMessage)) ∧
    ((∀ t ∈ t0 :: rest, ∀ e,
        dictGet? (buildTaskTemplates tasks).task_templates t = some e →
        e.total_virtual_tokens = e0.total_virtual_tokens) →
      ∀ m, load_task_templates (t0 :: rest) tasks ≠
        .error (.assertionError m)) := by
  have hspec := checkNewTasksAgree_spec (buildTaskTemplates tasks).task_templates
    e0.total_virtual_tokens (t0 :: rest) hall
  constructor
  · intro hmis
    simp [load_task_templates_cons, he0, hspec.1 hmis]
  · intro hag m
    simp [load_task_templates_cons, he0, hspec.2 hag]

theorem C2_load_task_templates_assert_witness :
    load_task_templates ["A", "B"] [taskA1, taskB2] =
      .error (.assertionError totalVirtualTokensAssertMessage) ∧
    load_task_templates ["A"] [taskA1, taskB2] ≠
      .error (.assertionError totalVirtualTokensAssertMessage) := by
  have hA : dictGet? (buildTaskTemplates [taskA1, taskB2]).task_templates "A" =
      some (mkTaskEntry taskA1 0) := rfl
  have hB : dictGet? (buildTaskTemplates [taskA1, taskB2]).task_templates "B" =
      some (mkTaskEntry taskB2 1) := rfl
  have h1 := C2_load_task_templates_assert [taskA1, taskB2] "A" ["B"]
    (mkTaskEntry taskA1 0) hA
    (by
      intro t ht
      rcases List.mem_cons.mp ht with h | h
      · exact ⟨mkTaskEntry taskA1 0, by rw [h]; exact hA⟩
      · rcases List.mem_cons.mp h with h2 | h2
        · exact ⟨mkTaskEntry taskB2 1, by rw [h2]; exact hB⟩
        · simp at h2)
  have h2 := C2_load_task_templates_assert [taskA1, taskB2] "A" []
    (mkTaskEntry taskA1 0) hA
    (by
      intro t ht
      rcases List.mem_cons.mp ht with h | h
      · exact ⟨mkTaskEntry taskA1 0, by rw [h]; exact hA⟩
      · simp at h)
  refine ⟨h1.1 ⟨"B", by simp, mkTaskEntry taskB2 1, hB, by decide⟩, ?_⟩
  refine h2.2 ?_ totalVirtualTokensAssertMessage
  intro t ht e he
  rcases List.mem_cons.mp ht with h | h
  · subst h
    rw [hA] at he
    cases he
    rfl
  · simp at h

/-- C2 counterexample: `new_tasks = ["A", "X", "B"]` over a table containing
"A" (1 virtual token) and "B" (2 virtual tokens) but not "X".  Some new
task ("B") has a count in the table differing from the first new task's, so
the claim predicts the assertion error; the code instead raises `KeyError`
for "X" while evaluating the generator inside `all(...)`. -/
theorem C2_counterexample_missing_middle_task :
    dictGet? (buildTaskTemplates [taskA1, taskB2]).task_templates "A" =
      some (mkTaskEntry taskA1 0) ∧
    dictGet? (buildTaskTemplates [taskA1, taskB2]).task_templates "B" =
      some (mkTaskEntry taskB2 1) ∧
    (mkTaskEntry taskB2 1).total_virtual_tokens ≠
      (mkTaskEntry taskA1 0).total_virtual_tokens ∧
    ("B" : String) ∈ ["A", "X", "B"] ∧
    load_task_templates ["A", "X", "B"] [taskA1, taskB2] =
      .error (.keyError "X") := by
  exact ⟨rfl, rfl, by decide, by decide, rfl⟩

/-! ## `pad_batch_and_build_loss_mask` -/

theorem padRowAndMask_spec (pseudo_token_ids : List Int) (pad_token_id : Int)
    (batch_max : Nat) (ids : List Int) (astart : Option Nat)
    (hle : ids.length ≤ batch_max) :
    (padRowAndMask pseudo_token_ids pad_token_id batch_max ids astart).1.length =
      batch_max ∧
    (padRowAndMask pseudo_token_ids pad_token_id batch_max ids astart).2.length =
      batch_max ∧
    (∀ idx, idx < ids.length →
      (padRowAndMask pseudo_token_ids pad_token_id batch_max ids astart).1[idx]? =
        ids[idx]?) ∧
    (∀ idx, ids.length ≤ idx → idx < batch_max →
      (padRowAndMask pseudo_token_ids pad_token_id batch_max ids astart).1[idx]? =
        some pad_token_id) ∧
    (∀ idx, ids.length ≤ idx → idx < batch_max →
      (padRowAndMask pseudo_token_ids pad_token_id batch_max ids astart).2[idx]? =
        some 0) ∧
    (∀ idx (hidx : idx < ids.length),
      (padRowAndMask pseudo_token_ids pad_token_id batch_max ids astart).2[idx]? =
        some (match astart with
          | some answer_start => if answer_start ≤ idx then (1 : ℚ) else 0
          | none =>
            if ids.get ⟨idx, hidx⟩ ∈ pseudo_token_ids then (0 : ℚ) else 1)) := by
  have hmask : (padRowAndMask pseudo_token_ids pad_token_id batch_max ids
      astart).2 =
      (match astart with
        | some answer_start =>
          (List.range ids.length).map
            (fun idx => if answer_start ≤ idx then (1 : ℚ) else 0)
        | none =>
          ids.map (fun token_id =>
            if token_id ∈ pseudo_token_ids then (0 : ℚ) else 1)) ++
        List.replicate (batch_max - ids.length) 0 := rfl
  have hmasklen : (match astart with
      | some answer_start =>
        (List.range ids.length).map
          (fun idx => if answer_start ≤ idx then (1 : ℚ) else 0)
      | none =>
        ids.map (fun token_id =>
          if token_id ∈ pseudo_token_ids then (0 : ℚ) else 1)).length =
      ids.length := by
    cases astart <;> simp
  refine ⟨?_, ?_, ?_, ?_, ?_, ?_⟩
  · show (ids ++ List.replicate (batch_max - ids.length) pad_token_id).length = _
    simp
    omega
  · rw [hmask, List.length_append, hmasklen, List.length_replicate]
    omega
  · intro idx hidx
    show (ids ++ List.replicate (batch_max - ids.length) pad_token_id)[idx]? = _
    rw [List.getElem?_append, if_pos hidx]
  · intro idx h1 h2
    show (ids ++ List.replicate (batch_max - ids.length) pad_token_id)[idx]? = _
    rw [List.getElem?_append_right h1, List.getElem?_replicate, if_pos (by omega)]
  · intro idx h1 h2
    rw [hmask, List.getElem?_append_right (by omega : (match astart with
        | some answer_start =>
          (List.range ids.length).map
            (fun idx => if answer_start ≤ idx then (1 : ℚ) else 0)
        | none =>
          ids.map (fun token_id =>
            if token_id ∈ pseudo_token_ids then (0 : ℚ) else 1)).length ≤ idx),
      List.getElem?_replicate, if_pos (by rw [hmasklen]; omega)]
  · intro idx hidx
    rw [hmask, List.getElem?_append, if_pos (by rw [hmasklen]; exact hidx)]
    cases astart with
    | none =>
      simp only [List.getElem?_map, List.getElem?_eq_getElem hidx]
      rfl
    | some answer_start =>
      simp only [List.getElem?_map, List.getElem?_range (by simpa using hidx)]
      rfl

theorem pad_batch_row (pseudo_token_ids : List Int) (pad_token_id : Int)
    (input_ids : List (List Int)) (batch_max : Nat)
    (answer_starts : List (Option Nat))
    (hlen : input_ids.length = answer_starts.length)
    (r : Nat) (hr : r < input_ids.length) :
    (pad_batch_and_build_loss_mask pseudo_token_ids pad_token_id input_ids
        batch_max answer_starts).1[r]? =
      some (padRowAndMask pseudo_token_ids pad_token_id batch_max
        (input_ids.get ⟨r, hr⟩) (answer_starts.get ⟨r, hlen ▸ hr⟩)).1 ∧
    (pad_batch_and_build_loss_mask pseudo_token_ids pad_token_id input_ids
        batch_max answer_starts).2[r]? =
      some (padRowAndMask pseudo_token_ids pad_token_id batch_max
        (input_ids.get ⟨r, hr⟩) (answer_starts.get ⟨r, hlen ▸ hr⟩)).2 := by
  have hzip : (List.zip input_ids answer_starts)[r]? =
      some (input_ids.get ⟨r, hr⟩, answer_starts.get ⟨r, hlen ▸ hr⟩) := by
    show (List.zipWith Prod.mk input_ids answer_starts)[r]? = _
    rw [List.getElem?_zipWith, List.getElem?_eq_getElem hr,
      List.getElem?_eq_getElem (hlen ▸ hr)]
    rfl
  constructor
  · show (((List.zip input_ids answer_starts).map
      (fun p => padRowAndMask pseudo_token_ids pad_token_id batch_max p.1 p.2)).map
        Prod.fst)[r]? = _
    rw [List.getElem?_map, List.getElem?_map, hzip]
    rfl
  · show (((List.zip input_ids answer_starts).map
      (fun p => padRowAndMask pseudo_token_ids pad_token_id batch_max p.1 p.2)).map
        Prod.snd)[r]? = _
    rw [List.getElem?_map, List.getElem?_map, hzip]
    rfl

/-- C8: `pad_batch_and_build_loss_mask` pads every row to length
`batch_max` with `pad_token_id`, preserving the original tokens; padded
positions carry loss-mask value `0`, and each original position `idx`
carries `1` exactly when the row's answer start is present and
`answer_start ≤ idx`, or no answer start is present and the token is not a
pseudo-token id, and `0` otherwise. -/
theorem C8_pad_batch_and_build_loss_mask_spec (pseudo_token_ids : List Int)
    (pad_token_id : Int) (input_ids : List (List Int)) (batch_max : Nat)
    (answer_starts : List (Option Nat))
    (hlen : input_ids.length = answer_starts.length)
    (hmax : ∀ row ∈ input_ids, row.length ≤ batch_max) :
    (pad_batch_and_build_loss_mask pseudo_token_ids pad_token_id input_ids
      batch_max answer_starts).1.length = input_ids.length ∧
    (pad_batch_and_build_loss_mask pseudo_token_ids pad_token_id input_ids
      batch_max answer_starts).2.length = input_ids.length ∧
    ∀ (r : Nat) (hr : r < input_ids.length),
      ((pad_batch_and_build_loss_mask pseudo_token_ids pad_token_id input_ids
        batch_max answer_starts).1[r]?.map List.length = some batch_max) ∧
      ((pad_batch_and_build_loss_mask pseudo_token_ids pad_token_id input_ids
        batch_max answer_starts).2[r]?.map List.length = some batch_max) ∧
      (∀ (idx : Nat) (hidx : idx < (input_ids.get ⟨r, hr⟩).length),
        ((pad_batch_and_build_loss_mask pseudo_token_ids pad_token_id input_ids
          batch_max answer_starts).1[r]?.bind (fun row => row[idx]?)) =
          some ((input_ids.get ⟨r, hr⟩).get ⟨idx, hidx⟩) ∧
        ((pad_batch_and_build_loss_mask pseudo_token_ids pad_token_id input_ids
          batch_max answer_starts).2[r]?.bind (fun row => row[idx]?)) =
          some (match answer_starts.get ⟨r, hlen ▸ hr⟩ with
            | some answer_start => if answer_start ≤ idx then (1 : ℚ) else 0
            | none =>
              if (input_ids.get ⟨r, hr⟩).get ⟨idx, hidx⟩ ∈ pseudo_token_ids
              then (0 : ℚ) else 1)) ∧
      (∀ idx : Nat, (input_ids.get ⟨r, hr⟩).length ≤ idx → idx < batch_max →
        ((pad_batch_and_build_loss_mask pseudo_token_ids pad_token_id input_ids
          batch_max answer_starts).1[r]?.bind (fun row => row[idx]?)) =
          some pad_token_id ∧
        ((pad_batch_and_build_loss_mask pseudo_token_ids pad_token_id input_ids
          batch_max answer_starts).2[r]?.bind (fun row => row[idx]?)) =
          some 0) := by
  refine ⟨?_, ?_, ?_⟩
  · show ((List.zip input_ids answer_starts).map _ |>.map Prod.fst).length = _
    simp [List.length_zip, hlen]
  · show ((List.zip input_ids answer_starts).map _ |>.map Prod.snd).length = _
    simp [List.length_zip, hlen]
  · intro r hr
    obtain ⟨h1, h2⟩ := pad_batch_row pseudo_token_ids pad_token_id input_ids
      batch_max answer_starts hlen r hr
    have hrow := padRowAndMask_spec pseudo_token_ids pad_token_id batch_max
      (input_ids.get ⟨r, hr⟩) (answer_starts.get ⟨r, hlen ▸ hr⟩)
      (hmax _ (input_ids.get_mem _ _))
    obtain ⟨hl1, hl2, horig, hpad1, hpad2, hmaskv⟩ := hrow
    refine ⟨?_, ?_, ?_, ?_⟩
    · rw [h1]
      exact congrArg some hl1
    · rw [h2]
      exact congrArg some hl2
    · intro idx hidx
      constructor
      · rw [h1]
        exact (horig idx hidx).trans (List.getElem?_eq_getElem hidx)
      · rw [h2]
        exact hmaskv idx hidx
    · intro idx hge hlt
      constructor
      · rw [h1]
        exact hpad1 idx hge hlt
      · rw [h2]
        exact hpad2 idx hge hlt

theorem C8_pad_batch_and_build_loss_mask_spec_witness :
    pad_batch_and_build_loss_mask [5] 9 [[5, 1], [2, 3]] 3 [none, some 1] =
      ([[5, 1, 9], [2, 3, 9]],
       [[0, 1, 0], [0, 1, 0]]) ∧
    ((pad_batch_and_build_loss_mask [5] 9 [[5, 1], [2, 3]] 3
      [none, some 1]).1[0]?.map List.length = some 3) ∧
    ((pad_batch_and_build_loss_mask [5] 9 [[5, 1], [2, 3]] 3
      [none, some 1]).1[0]?.bind (fun row => row[2]?)) = some 9 ∧
    ((pad_batch_and_build_loss_mask [5] 9 [[5, 1], [2, 3]] 3
      [none, some 1]).2[0]?.bind (fun row => row[0]?)) = some 0 ∧
    ((pad_batch_and_build_loss_mask [5] 9 [[5, 1], [2, 3]] 3
      [none, some 1]).2[1]?.bind (fun row => row[1]?)) = some 1 := by
  have h := C8_pad_batch_and_build_loss_mask_spec [5] 9 [[5, 1], [2, 3]] 3
    [none, some 1] (by decide) (by decide)
  obtain ⟨_, _, hrows⟩ := h
  have hr0 := hrows 0 (by decide)
  have hr1 := hrows 1 (by decide)
  refine ⟨by decide, hr0.1, (hr0.2.2.2 2 (by decide) (by decide)).1,
    ((hr0.2.2.1 0 (by decide)).2).trans (by decide),
    ((hr1.2.2.1 1 (by decide)).2).trans (by decide)⟩

/-! ## Empty pseudo-token vocabulary (C10) and the construction frame (C7) -/

theorem loadTaskTemplatesLoop_max_zero (tasks : List TaskTemplateCfg) :
    ∀ (n : Nat) (st : TaskTemplateTable),
      (∀ t ∈ tasks, t.total_virtual_tokens = 0) → st.max_virtual_tokens = 0 →
      (loadTaskTemplatesLoop tasks n st).max_virtual_tokens = 0 := by
  induction tasks with
  | nil => intro n st _ h0; exact h0
  | cons t rest ih =>
    intro n st hz h0
    rw [loadTaskTemplatesLoop_cons]
    apply ih (n + 1)
    · intro x hx
      exact hz x (List.mem_cons_of_mem _ hx)
    · show max st.max_virtual_tokens t.total_virtual_tokens = 0
      rw [hz t (List.mem_cons_self _ _), h0]
      rfl

theorem load_task_templates_ok_table (new_tasks : List String)
    (tasks : List TaskTemplateCfg) (r : LoadResult)
    (h : load_task_templates new_tasks tasks = .ok r) :
    r.table = buildTaskTemplates tasks := by
  cases new_tasks with
  | nil =>
    simp only [load_task_templates] at h
    cases h
    rfl
  | cons t0 rest =>
    rw [load_task_templates_cons] at h
    cases hd : dictGet? (buildTaskTemplates tasks).task_templates t0 with
    | none => simp [hd] at h
    | some e =>
      rw [hd] at h
      cases hc : checkNewTasksAgree (buildTaskTemplates tasks).task_templates
          e.total_virtual_tokens (t0 :: rest) with
      | error err => simp [hc] at h
      | ok u =>
        cases u
        simp [hc] at h
        rw [← h]

/-- C10: when every task in the config list declares zero virtual tokens
(in particular when the list is empty), `max_virtual_tokens` is `0`, the
pseudo-token list built at construction is empty, the tokenized id list is
empty, and `pseudo_token_ids_start` is `None`. -/
theorem C10_empty_pseudo_token_vocabulary (tasks : List TaskTemplateCfg)
    (tokenToId : String → Int)
    (hzero : ∀ t ∈ tasks, t.total_virtual_tokens = 0) :
    (buildTaskTemplates tasks).max_virtual_tokens = 0 ∧
    get_pseudo_tokens (buildTaskTemplates tasks).max_virtual_tokens = [] ∧
    tokens_to_ids tokenToId
      (get_pseudo_tokens (buildTaskTemplates tasks).max_virtual_tokens) = [] ∧
    (tokens_to_ids tokenToId
      (get_pseudo_tokens (buildTaskTemplates tasks).max_virtual_tokens)).head? =
      none ∧
    (∀ (st : ModelState Unit Unit Unit Unit) (s : String)
        (new_tasks : List String) (pad_id : Option Int) (unk_id : Int),
      constructModel Unit Unit Unit Unit s tasks new_tasks tokenToId pad_id
          unk_id = .ok st →
      st.pseudo_tokens = [] ∧ st.pseudo_token_ids = [] ∧
        st.pseudo_token_ids_start = none) := by
  have hmax : (buildTaskTemplates tasks).max_virtual_tokens = 0 :=
    loadTaskTemplatesLoop_max_zero tasks 0 ⟨[], [], 0⟩ hzero rfl
  have hpt : get_pseudo_tokens (buildTaskTemplates tasks).max_virtual_tokens = [] := by
    rw [hmax]
    rfl
  refine ⟨hmax, hpt, by rw [hpt]; rfl, by rw [hpt]; rfl, ?_⟩
  intro st s new_tasks pad_id unk_id h
  cases hsty : virtualPromptStyleOfString s with
  | error e =>
    cases e
    simp [constructModel, hsty] at h
  | ok sty =>
    cases hload : load_task_templates new_tasks tasks with
    | error e => simp [constructModel, hsty, hload] at h
    | ok r =>
      cases hsel : selectVirtualPromptSource sty s with
      | error e =>
        cases e
        simp [constructModel, hsty, hload, hsel] at h
      | ok src =>
        simp [constructModel, hsty, hload, hsel] at h
        have htab := load_task_templates_ok_table new_tasks tasks r hload
        have hempty : get_pseudo_tokens r.table.max_virtual_tokens = [] := by
          rw [htab]
          exact hpt
        rw [← h]
        refine ⟨hempty, ?_, ?_⟩ <;> simp [tokens_to_ids, hempty]

theorem C10_empty_pseudo_token_vocabulary_witness :
    (buildTaskTemplates [taskA0]).max_virtual_tokens = 0 ∧
    get_pseudo_tokens (buildTaskTemplates [taskA0]).max_virtual_tokens = [] ∧
    (tokens_to_ids (fun _ => 7)
      (get_pseudo_tokens (buildTaskTemplates [taskA0]).max_virtual_tokens)).head? =
      none := by
  have h := C10_empty_pseudo_token_vocabulary [taskA0] (fun _ => 7) (by decide)
  exact ⟨h.1, h.2.1, h.2.2.2.1⟩

/-- C7: the task-template table and the pseudo-token vocabulary are
populated during construction from the config's `task_templates` list, and
none of the other operations of the class (setup, the data-setup hooks,
`build_virtual_prompt_dataset`, `collate_fn`, `validation_step`, the
adapter methods) changes any of those fields. -/
theorem C7_prompt_table_frame (DS DL RetroDS Layer : Type) (s : String)
    (cfg_task_templates : List TaskTemplateCfg) (new_tasks : List String)
    (tokenToId : String → Int) (pad_id : Option Int) (unk_id : Int)
    (st : ModelState DS DL RetroDS Layer) (stage : Option String)
    (cfg_has_train_ds cfg_has_validation_ds cfg_has_test_ds : Bool)
    (train_built validation_built test_built : DS × DL)
    (retro_built : RetroDS × RetroDS × RetroDS)
    (buildDS : List (String × TaskEntry) → List String → Int →
      VirtualPromptSource → DS)
    (buildDL : DS → DL)
    (batch : List (List Int × List Int × Option Nat)) (tp_workers : Nat)
    (forward : List (List Int) → List (List Int) → List (List Int) →
      List (List Int) → List (List Int) → List ℚ)
    (average_losses : List ℚ → List ℚ)
    (vbatch : List (List Int) × List (List Int) × List (List ℚ) ×
      List (List Int) × List (List Int) × List (List Int))
    (layerAdd layerSet : Layer → Layer) (layerNames : Layer → List String)
    (layerAvail : Layer → Bool) :
    (∀ st0 : ModelState DS DL RetroDS Layer,
      constructModel DS DL RetroDS Layer s cfg_task_templates new_tasks
          tokenToId pad_id unk_id = .ok st0 →
      st0.task_templates = (buildTaskTemplates cfg_task_templates).task_templates ∧
      st0.task_id_num_to_name =
        (buildTaskTemplates cfg_task_templates).task_id_num_to_name ∧
      st0.max_virtual_tokens =
        (buildTaskTemplates cfg_task_templates).max_virtual_tokens ∧
      st0.pseudo_tokens =
        get_pseudo_tokens (buildTaskTemplates cfg_task_templates).max_virtual_tokens ∧
      st0.pseudo_token_ids = tokens_to_ids tokenToId st0.pseudo_tokens ∧
      st0.pseudo_token_ids_start = st0.pseudo_token_ids.head?) ∧
    promptFields (setup stage cfg_has_train_ds cfg_has_validation_ds
      train_built validation_built retro_built st) = promptFields st ∧
    promptFields (setup_training_data cfg_has_train_ds train_built st) =
      promptFields st ∧
    promptFields (setup_validation_data cfg_has_validation_ds validation_built st) =
      promptFields st ∧
    promptFields (setup_test_data cfg_has_test_ds test_built st) = promptFields st ∧
    promptFields (build_virtual_prompt_dataset buildDS buildDL st).1 =
      promptFields st ∧
    promptFields (collate_fn_method st batch tp_workers).1 = promptFields st ∧
    promptFields (validation_step forward average_losses st vbatch).1 =
      promptFields st ∧
    promptFields (add_adapter layerAdd st) = promptFields st ∧
    promptFields (get_enabled_adapters layerNames st).1 = promptFields st ∧
    promptFields (set_enabled_adapters layerSet st) = promptFields st ∧
    promptFields (is_adapter_available layerAvail st).1 = promptFields st := by
  constructor
  · intro st0 h
    cases hsty : virtualPromptStyleOfString s with
    | error e =>
      cases e
      simp [constructModel, hsty] at h
    | ok sty =>
      cases hload : load_task_templates new_tasks cfg_task_templates with
      | error e => simp [constructModel, hsty, hload] at h
      | ok r =>
        cases hsel : selectVirtualPromptSource sty s with
        | error e =>
          cases e
          simp [constructModel, hsty, hload, hsel] at h
        | ok src =>
          simp [constructModel, hsty, hload, hsel] at h
          have htab := load_task_templates_ok_table new_tasks cfg_task_templates
            r hload
          rw [← h, htab]
          exact ⟨rfl, rfl, rfl, rfl, rfl, rfl⟩
  refine ⟨?_, ?_, ?_, ?_, rfl, rfl, rfl, rfl, rfl, rfl, rfl⟩
  · unfold setup setup_training_data setup_validation_data
    split
    · rfl
    · split <;> split <;> rfl
  · unfold setup_training_data
    split <;> rfl
  · unfold setup_validation_data
    split <;> rfl
  · unfold setup_test_data
    split <;> rfl

theorem C7_prompt_table_frame_witness :
    (pTuningModelState.task_templates =
      (buildTaskTemplates []).task_templates ∧
     pTuningModelState.pseudo_tokens =
      get_pseudo_tokens (buildTaskTemplates []).max_virtual_tokens ∧
     pTuningModelState.pseudo_token_ids_start =
      pTuningModelState.pseudo_token_ids.head?) ∧
    promptFields (setup_test_data true ((), ()) pTuningModelState) =
      promptFields pTuningModelState ∧
    promptFields (add_adapter id pTuningModelState) =
      promptFields pTuningModelState := by
  have h := C7_prompt_table_frame Unit Unit Unit Unit "p-tuning" [] []
    (fun _ => 0) none 0 pTuningModelState none true true true ((), ()) ((), ())
    ((), ()) ((), (), ()) (fun _ _ _ _ => ()) (fun _ => ()) [] 0
    (fun _ _ _ _ _ => []) id ([], [], [], [], [], []) id id (fun _ => [])
    (fun _ => true)
  have hinit := h.1 pTuningModelState rfl
  exact ⟨⟨hinit.1, hinit.2.2.2.1, hinit.2.2.2.2.2⟩, h.2.2.2.2.1, h.2.2.2.2.2.2.2.2.1⟩

end NeMo
